import Mathlib

/-!
Verification of the star-rating connector
(src/connectors/star-rating/connectStarRating.js).

The connector is shallowly embedded: the helper object is a state record
(the disjunctive refinement values applied to the configured attribute,
plus a counter of issued searches), facet results are a list of
name/count pairs, and each method of the returned widget becomes a pure
Lean function.  JavaScript numbers that matter here are integers (ratings
and counts); facet names may be fractional, so they are modelled as
rationals and rounded with the JS rounding rule.  JS truthiness tests on
numbers (zero is falsy) are modelled explicitly.
-/

namespace StarRating

/-- JS Math.round: rounds half toward positive infinity. -/
def jsRound (q : ℚ) : ℤ := ⌊q + 1 / 2⌋

/-- One entry of results.getFacetValues(attributeName). -/
structure FacetValue where
  name : ℚ
  count : ℕ
deriving DecidableEq

/-- The results object, restricted to the fields the connector reads. -/
structure Results where
  getFacetValues : List FacetValue
  nbHits : ℕ
deriving DecidableEq

/-- The widget configuration after destructuring widgetParams. -/
structure Config where
  attributeName : String
  max : ℕ
deriving DecidableEq

/-- The search helper state for the configured attribute: the disjunctive
facet refinement values in insertion order, and how many searches were
issued. -/
structure HelperState where
  refinements : List ℤ
  searchCount : ℕ
deriving DecidableEq

/-- helper.getRefinements(attributeName), keeping only the numeric value of
each refinement. -/
def getRefinements (s : HelperState) : List ℤ := s.refinements

/-- helper.clearRefinements(attributeName). -/
def clearRefinements (s : HelperState) : HelperState :=
  { s with refinements := [] }

/-- helper.addDisjunctiveFacetRefinement(attributeName, v). -/
def addDisjunctiveFacetRefinement (s : HelperState) (v : ℤ) : HelperState :=
  { s with refinements := s.refinements ++ [v] }

/-- helper.search(). -/
def search (s : HelperState) : HelperState :=
  { s with searchCount := s.searchCount + 1 }

/-- One step of the loop body of _getRefinedStar: the JS test is
(!refinedStar || Number(r.value) < refinedStar), and !refinedStar is true
both for undefined and for the number 0. -/
def getRefinedStarStep (acc : Option ℤ) (v : ℤ) : Option ℤ :=
  match acc with
  | none => some v
  | some r => if r = 0 ∨ v < r then some v else some r

/-- _getRefinedStar(helper): folds the refinement values with the
truthiness-guarded minimum update of the source. -/
def _getRefinedStar (s : HelperState) : Option ℤ :=
  (getRefinements s).foldl getRefinedStarStep none

/-- The integers lo, lo+1, ..., hi (empty when hi < lo): the values visited
by a JS for-loop counting up by one. -/
def intRange (lo hi : ℤ) : List ℤ :=
  (List.range (hi + 1 - lo).toNat).map (fun (i : ℕ) => lo + (i : ℤ))

/-- _toggleRefinement(helper, facetValue): decide whether the value is the
currently refined star, clear the refinements, re-apply the range up to max
when it was not refined, and search. -/
def _toggleRefinement (c : Config) (s : HelperState) (facetValue : ℤ) : HelperState :=
  let s1 := clearRefinements s
  let s2 :=
    if _getRefinedStar s = some facetValue then s1
    else (intRange facetValue (c.max : ℤ)).foldl addDisjunctiveFacetRefinement s1
  search s2

/-- The body of the facet loop of render: val = Math.round(facet.name) is
skipped when falsy (0) or above max; otherwise the count is added to every
table index from val down to 1.  A negative val passes the JS guard but its
downward loop runs zero times, which the pointwise guard reproduces. -/
def processFacet (max : ℕ) (t : ℤ → ℕ) (f : FacetValue) : ℤ → ℕ := fun v =>
  if jsRound f.name = 0 ∨ (max : ℤ) < jsRound f.name then t v
  else if 1 ≤ v ∧ v ≤ jsRound f.name then t v + f.count else t v

/-- The cumulative count table allValues of render: all entries start at 0,
then every facet value is folded in. -/
def allValues (c : Config) (r : Results) : ℤ → ℕ :=
  r.getFacetValues.foldl (processFacet c.max) (fun _ => 0)

/-- JS truthiness of the possibly-undefined number refinedStar. -/
def isTruthy : Option ℤ → Bool
  | none => false
  | some r => decide (r ≠ 0)

/-- The continue condition of the bucket loop:
(refinedStar && star !== refinedStar && count === 0). -/
def skipBucket (refinedStar : Option ℤ) (star : ℤ) (count : ℕ) : Bool :=
  isTruthy refinedStar && decide (refinedStar ≠ some star) && decide (count = 0)

/-- The stars array pushed for a bucket: entry for i = 1..max is (i <= star),
stored 0-indexed. -/
def bucketStars (max : ℕ) (star : ℕ) : List Bool :=
  (List.range max).map (fun i => decide (i + 1 ≤ star))

/-- One emitted bucket of the render loop. -/
structure StarRatingItem where
  stars : List Bool
  name : String
  value : String
  count : ℕ
  isRefined : Bool
deriving DecidableEq

/-- The object pushed onto facetValues for a given star. -/
def mkItem (max : ℕ) (refinedStar : Option ℤ) (star : ℕ) (count : ℕ) : StarRatingItem :=
  { stars := bucketStars max star
    name := toString star
    value := toString star
    count := count
    isRefined := decide (refinedStar = some (star : ℤ)) }

/-- The stars visited by the bucket loop, in source order: max-1 down to 1. -/
def starList (max : ℕ) : List ℕ :=
  ((List.range (max - 1)).map (fun i => i + 1)).reverse

/-- The facetValues list built by render: the loop keeps, in order, every
star whose continue condition fails, and pushes its item. -/
def renderItems (c : Config) (s : HelperState) (r : Results) : List StarRatingItem :=
  ((starList c.max).filter (fun (star : ℕ) =>
      !skipBucket (_getRefinedStar s) (star : ℤ) (allValues c r (star : ℤ)))).map
    (fun (star : ℕ) => mkItem c.max (_getRefinedStar s) star (allValues c r (star : ℤ)))

/-- The arguments render passes to renderFn, restricted to the data fields. -/
structure RenderPayload where
  items : List StarRatingItem
  hasNoResults : Bool
  isFirstRender : Bool
deriving DecidableEq

/-- render: reads the helper and the results, builds the payload, and hands
back the helper state it was given (the method only reads it). -/
def render (c : Config) (s : HelperState) (r : Results) : HelperState × RenderPayload :=
  (s,
    { items := renderItems c s r
      hasNoResults := decide (r.nbHits = 0)
      isFirstRender := false })

/-- The widget parameters before destructuring: either field may be absent. -/
structure WidgetParams where
  attributeName : Option String
  max : Option ℕ
deriving DecidableEq

/-- The usage message thrown on misconfiguration. -/
def usage : String :=
  "Usage: connectStarRating(renderFn) then customStarRating with attributeName and optional max"

/-- Modelled from the spec: checkRendering (imported from src/lib/utils.js,
a file not present in the sources) raises a configuration error with the
usage message when the render callback is absent or not invocable. -/
def checkRendering (renderFnIsFunction : Bool) : Except String Unit :=
  if renderFnIsFunction then Except.ok () else Except.error usage

/-- connectStarRating(renderFn) followed by the widget factory applied to
widgetParams: validates the render callback, then attributeName (undefined
and the empty string are falsy), and resolves the default max = 5. -/
def connectStarRating (renderFnIsFunction : Bool) (p : WidgetParams) : Except String Config :=
  match checkRendering renderFnIsFunction with
  | Except.error e => Except.error e
  | Except.ok _ =>
    match p.attributeName with
    | none => Except.error usage
    | some a =>
      if a = "" then Except.error usage
      else Except.ok { attributeName := a, max := p.max.getD 5 }

/-! Helper lemmas. -/

lemma mem_intRange {lo hi v : ℤ} : v ∈ intRange lo hi ↔ lo ≤ v ∧ v ≤ hi := by
  unfold intRange
  rw [List.mem_map]
  constructor
  · rintro ⟨i, h1, rfl⟩
    rw [List.mem_range] at h1
    omega
  · intro h
    refine ⟨(v - lo).toNat, ?_, ?_⟩
    · rw [List.mem_range]
      omega
    · omega

lemma intRange_nil {lo hi : ℤ} (h : hi < lo) : intRange lo hi = [] := by
  unfold intRange
  have h0 : (hi + 1 - lo).toNat = 0 := by omega
  rw [h0]
  rfl

lemma foldl_addRef (l : List ℤ) (s : HelperState) :
    l.foldl addDisjunctiveFacetRefinement s = { s with refinements := s.refinements ++ l } := by
  induction l generalizing s with
  | nil => simp
  | cons v tl ih =>
    simp [List.foldl_cons, addDisjunctiveFacetRefinement, ih]

lemma foldl_step_some (l : List ℤ) : ∀ a : ℤ, a ≠ 0 → (∀ v ∈ l, v ≠ 0) →
    ∃ m, l.foldl getRefinedStarStep (some a) = some m ∧ m ≠ 0 ∧ (m = a ∨ m ∈ l) ∧
      m ≤ a ∧ ∀ v ∈ l, m ≤ v := by
  induction l with
  | nil =>
    intro a ha _
    exact ⟨a, rfl, ha, Or.inl rfl, le_refl a, by simp⟩
  | cons v tl ih =>
    intro a ha hl
    have hv : v ≠ 0 := hl v (List.mem_cons_self v tl)
    have htl : ∀ w ∈ tl, w ≠ 0 := fun w hw => hl w (List.mem_cons_of_mem v hw)
    by_cases hlt : v < a
    · have hstep : getRefinedStarStep (some a) v = some v := by
        simp [getRefinedStarStep, hlt]
      rw [List.foldl_cons, hstep]
      obtain ⟨m, hm, hm0, hmem, hle, hall⟩ := ih v hv htl
      refine ⟨m, hm, hm0, ?_, by omega, ?_⟩
      · rcases hmem with h | h
        · exact Or.inr (h ▸ List.mem_cons_self v tl)
        · exact Or.inr (List.mem_cons_of_mem v h)
      · intro w hw
        rcases List.mem_cons.mp hw with rfl | hw2
        · exact hle
        · exact hall w hw2
    · have hstep : getRefinedStarStep (some a) v = some a := by
        simp [getRefinedStarStep, ha, hlt]
      rw [List.foldl_cons, hstep]
      obtain ⟨m, hm, hm0, hmem, hle, hall⟩ := ih a ha htl
      refine ⟨m, hm, hm0, ?_, hle, ?_⟩
      · rcases hmem with h | h
        · exact Or.inl h
        · exact Or.inr (List.mem_cons_of_mem v h)
      · intro w hw
        rcases List.mem_cons.mp hw with rfl | hw2
        · omega
        · exact hall w hw2

lemma getRefinedStar_min (s : HelperState)
    (h0 : ∀ v ∈ getRefinements s, v ≠ 0) (hne : getRefinements s ≠ []) :
    ∃ m, _getRefinedStar s = some m ∧ m ∈ getRefinements s ∧
      ∀ v ∈ getRefinements s, m ≤ v := by
  obtain ⟨a, tl, heq⟩ := List.exists_cons_of_ne_nil hne
  have ha : a ≠ 0 := h0 a (by rw [heq]; exact List.mem_cons_self a tl)
  have htl : ∀ w ∈ tl, w ≠ 0 := fun w hw => h0 w (by rw [heq]; exact List.mem_cons_of_mem a hw)
  obtain ⟨m, hm, hm0, hmem, hle, hall⟩ := foldl_step_some tl a ha htl
  refine ⟨m, ?_, ?_, ?_⟩
  · unfold _getRefinedStar
    rw [heq, List.foldl_cons]
    exact hm
  · rw [heq]
    rcases hmem with h | h
    · exact h ▸ List.mem_cons_self a tl
    · exact List.mem_cons_of_mem a h
  · intro w hw
    rw [heq] at hw
    rcases List.mem_cons.mp hw with rfl | hw2
    · exact hle
    · exact hall w hw2

lemma getRefinedStar_nil (s : HelperState) (h : getRefinements s = []) :
    _getRefinedStar s = none := by
  unfold _getRefinedStar
  rw [h]
  rfl

lemma skipBucket_eq_true {rs : Option ℤ} {star : ℤ} {count : ℕ} :
    skipBucket rs star count = true ↔
      (isTruthy rs = true ∧ rs ≠ some star ∧ count = 0) := by
  simp [skipBucket, and_assoc]

lemma starList_length (max : ℕ) : (starList max).length = max - 1 := by
  simp [starList]

lemma mem_starList {max st : ℕ} : st ∈ starList max ↔ 1 ≤ st ∧ st ≤ max - 1 := by
  simp only [starList, List.mem_reverse, List.mem_map, List.mem_range]
  constructor
  · rintro ⟨i, h1, rfl⟩
    omega
  · intro h
    exact ⟨st - 1, by omega, by omega⟩

lemma starList_pairwise (max : ℕ) : (starList max).Pairwise (· > ·) := by
  unfold starList
  rw [List.pairwise_reverse]
  refine (List.pairwise_lt_range (max - 1)).map (fun i => i + 1) ?_
  intro a b h
  simpa [flip] using Nat.succ_lt_succ h

lemma getRefinedStar_intRange (s : HelperState) (T hi : ℤ) (h1 : 1 ≤ T) (h2 : T ≤ hi)
    (h : s.refinements = intRange T hi) : _getRefinedStar s = some T := by
  have hT : T ∈ getRefinements s := by
    rw [getRefinements, h]
    exact mem_intRange.mpr ⟨le_refl T, h2⟩
  have hz : ∀ v ∈ getRefinements s, v ≠ 0 := by
    intro v hv
    rw [getRefinements, h] at hv
    have := mem_intRange.mp hv
    omega
  have hne : getRefinements s ≠ [] := by
    intro hnil
    rw [hnil] at hT
    exact List.not_mem_nil T hT
  obtain ⟨m, hm, hmm, hall⟩ := getRefinedStar_min s hz hne
  have h3 : T ≤ m := by
    rw [getRefinements, h] at hmm
    exact (mem_intRange.mp hmm).1
  have h4 : m ≤ T := hall T hT
  have h5 : m = T := le_antisymm h4 h3
  rw [hm, h5]

/-! Claim theorems. -/

/-- Claim C1: in render, a facet value contributes its count to the
cumulative table exactly at the indices v with 1 <= v <= r, where r is the
rounded value, and only when r is within 1..max; a value rounding to 0 or
below, or above max, changes no table entry. -/
theorem c1_cumulative_contribution (c : Config) (t : ℤ → ℕ) (f : FacetValue) (v : ℤ) :
    processFacet c.max t f v =
      (if 1 ≤ v ∧ v ≤ jsRound f.name ∧ jsRound f.name ≤ (c.max : ℤ)
       then t v + f.count else t v) := by
  unfold processFacet
  split_ifs <;> omega

/-- Claim C2: refine(value) always increments the search counter by one, and
the resulting refinements for the attribute are exactly the integers from
value up to max when the value was not the derived active threshold, and
empty (just cleared) when it was. -/
theorem c2_toggle_effects (c : Config) (s : HelperState) (x : ℤ) :
    (_toggleRefinement c s x).searchCount = s.searchCount + 1 ∧
    ∀ v : ℤ, v ∈ (_toggleRefinement c s x).refinements ↔
      (¬ _getRefinedStar s = some x ∧ x ≤ v ∧ v ≤ (c.max : ℤ)) := by
  by_cases h : _getRefinedStar s = some x
  · simp [_toggleRefinement, h, search, clearRefinements]
  · simp [_toggleRefinement, h, search, clearRefinements, foldl_addRef, mem_intRange]

/-- Claim C7: render invokes the callback with hasNoResults true exactly
when the results hit count is 0 (the field the spec calls totalHits is
nbHits in the source), and with isFirstRender false. -/
theorem c7_render_flags (c : Config) (s : HelperState) (r : Results) :
    ((render c s r).2.hasNoResults = true ↔ r.nbHits = 0) ∧
    (render c s r).2.isFirstRender = false := by
  refine ⟨?_, rfl⟩
  simp [render]

/-- Claim C9: render passes the helper state through unchanged: it reads
refinements and facet values but performs no clear, no add and no search. -/
theorem c9_render_preserves_state (c : Config) (s : HelperState) (r : Results) :
    (render c s r).1 = s := rfl

/-- Claim C10: refining with a value above max that is not the active
threshold clears the refinements, re-applies nothing (the upward loop is
empty), and still runs exactly one search. -/
theorem c10_out_of_range_refine (c : Config) (s : HelperState) (x : ℤ)
    (h1 : (c.max : ℤ) < x) (h2 : _getRefinedStar s ≠ some x) :
    (_toggleRefinement c s x).refinements = [] ∧
    (_toggleRefinement c s x).searchCount = s.searchCount + 1 := by
  have h3 : intRange x (c.max : ℤ) = [] := intRange_nil h1
  simp [_toggleRefinement, h3, h2, search, clearRefinements]

/-- Witness for C10 at max = 5, refinements 3..5 and refine value 7. -/
theorem c10_witness :
    ((((5 : ℕ) : ℤ) < 7 ∧ _getRefinedStar ⟨[3, 4, 5], 0⟩ ≠ some 7) ∧
      (_toggleRefinement ⟨"rating", 5⟩ ⟨[3, 4, 5], 0⟩ 7).refinements = [] ∧
      (_toggleRefinement ⟨"rating", 5⟩ ⟨[3, 4, 5], 0⟩ 7).searchCount = 0 + 1) :=
  ⟨⟨by decide, by decide⟩,
    c10_out_of_range_refine ⟨"rating", 5⟩ ⟨[3, 4, 5], 0⟩ 7 (by decide) (by decide)⟩

/-- Claim C3 (amended): the emitted list is the item list of the stars that
survive the continue condition, and a loop threshold star survives exactly
when it is not the case that refinedStar is truthy (present and nonzero),
differs from star, and the cumulative count at star is 0. -/
theorem c3_skip_condition (c : Config) (s : HelperState) (r : Results) (star : ℕ)
    (h : star ∈ starList c.max) :
    renderItems c s r =
      ((starList c.max).filter (fun (st : ℕ) =>
          !skipBucket (_getRefinedStar s) (st : ℤ) (allValues c r (st : ℤ)))).map
        (fun (st : ℕ) => mkItem c.max (_getRefinedStar s) st (allValues c r (st : ℤ))) ∧
    (star ∈ (starList c.max).filter (fun (st : ℕ) =>
        !skipBucket (_getRefinedStar s) (st : ℤ) (allValues c r (st : ℤ))) ↔
      ¬(isTruthy (_getRefinedStar s) = true ∧ _getRefinedStar s ≠ some (star : ℤ) ∧
        allValues c r (star : ℤ) = 0)) := by
  refine ⟨rfl, ?_⟩
  rw [List.mem_filter, Bool.not_eq_true', ← Bool.not_eq_true, skipBucket_eq_true]
  simp [h]

/-- Counterexample for C3 as stated: with the single refinement value 0 the
derived refinedStar is defined (some 0), star 1 differs from it and its
count is 0, yet the bucket for star 1 is emitted, because the JS truthiness
test treats the number 0 like no refinement. -/
theorem c3_counterexample :
    _getRefinedStar ⟨[0], 0⟩ = some 0 ∧
    allValues ⟨"rating", 5⟩ ⟨[], 0⟩ 1 = 0 ∧
    mkItem 5 (some 0) 1 0 ∈ renderItems ⟨"rating", 5⟩ ⟨[0], 0⟩ ⟨[], 0⟩ := by
  decide

/-- Witness for C3 at max = 5, star = 4, no refinements, empty facet list. -/
theorem c3_witness :
    (4 ∈ starList 5) ∧
    (renderItems ⟨"rating", 5⟩ ⟨[], 0⟩ ⟨[], 7⟩ =
      ((starList 5).filter (fun (st : ℕ) =>
          !skipBucket (_getRefinedStar ⟨[], 0⟩) (st : ℤ)
            (allValues ⟨"rating", 5⟩ ⟨[], 7⟩ (st : ℤ)))).map
        (fun (st : ℕ) => mkItem 5 (_getRefinedStar ⟨[], 0⟩) st
          (allValues ⟨"rating", 5⟩ ⟨[], 7⟩ (st : ℤ))) ∧
      (4 ∈ (starList 5).filter (fun (st : ℕ) =>
          !skipBucket (_getRefinedStar ⟨[], 0⟩) (st : ℤ)
            (allValues ⟨"rating", 5⟩ ⟨[], 7⟩ (st : ℤ))) ↔
        ¬(isTruthy (_getRefinedStar ⟨[], 0⟩) = true ∧
          _getRefinedStar ⟨[], 0⟩ ≠ some ((4 : ℕ) : ℤ) ∧
          allValues ⟨"rating", 5⟩ ⟨[], 7⟩ ((4 : ℕ) : ℤ) = 0))) :=
  ⟨by decide, c3_skip_condition ⟨"rating", 5⟩ ⟨[], 0⟩ ⟨[], 7⟩ 4 (by decide)⟩

/-- Claim C4: every render emits at most max-1 buckets; the emitted items
are, in strictly descending order, the items of distinct stars in
[1, max-1] (max itself never appears), and each stars array has length max
with entry i (0-indexed) true exactly when i+1 is at most the star. -/
theorem c4_bucket_shape (c : Config) (s : HelperState) (r : Results) :
    (renderItems c s r).length ≤ c.max - 1 ∧
    (∀ it ∈ renderItems c s r, it.stars.length = c.max) ∧
    ∃ L : List ℕ, L.Pairwise (· > ·) ∧ (∀ st ∈ L, 1 ≤ st ∧ st ≤ c.max - 1) ∧
      renderItems c s r =
        L.map (fun (st : ℕ) => mkItem c.max (_getRefinedStar s) st (allValues c r (st : ℤ))) ∧
      ∀ st ∈ L, ∀ i : ℕ, i < c.max →
        (mkItem c.max (_getRefinedStar s) st (allValues c r (st : ℤ))).stars.getD i false =
          decide (i + 1 ≤ st) := by
  refine ⟨?_, ?_, ?_⟩
  · calc (renderItems c s r).length
        = ((starList c.max).filter (fun (star : ℕ) =>
            !skipBucket (_getRefinedStar s) (star : ℤ) (allValues c r (star : ℤ)))).length := by
          rw [renderItems, List.length_map]
      _ ≤ (starList c.max).length := List.length_filter_le _ _
      _ = c.max - 1 := starList_length c.max
  · intro it hit
    rw [renderItems] at hit
    obtain ⟨st, hst, rfl⟩ := List.mem_map.mp hit
    simp [mkItem, bucketStars]
  · refine ⟨(starList c.max).filter (fun (star : ℕ) =>
      !skipBucket (_getRefinedStar s) (star : ℤ) (allValues c r (star : ℤ))), ?_, ?_, rfl, ?_⟩
    · exact (starList_pairwise c.max).filter _
    · intro st hst
      exact mem_starList.mp (List.mem_of_mem_filter hst)
    · intro st hst i hi
      have hl : i < ((List.range c.max).map (fun j => decide (j + 1 ≤ st))).length := by
        simpa using hi
      simp only [mkItem, bucketStars]
      rw [List.getD_eq_getElem _ _ hl, List.getElem_map, List.getElem_range]

/-- Claim C5 (amended): when no refinement value is 0, the derived
refinedStar is none for an empty refinement list and otherwise is the
minimum refinement value; a refinement value 0 can instead be overwritten
by a later value, because the running candidate is kept only while truthy. -/
theorem c5_refinedStar_minimum (s : HelperState)
    (h : ∀ v ∈ getRefinements s, v ≠ 0) :
    (getRefinements s = [] → _getRefinedStar s = none) ∧
    (getRefinements s ≠ [] → ∃ m, _getRefinedStar s = some m ∧ m ∈ getRefinements s ∧
      ∀ v ∈ getRefinements s, m ≤ v) :=
  ⟨getRefinedStar_nil s, getRefinedStar_min s h⟩

/-- Counterexample for C5 as stated: for the refinement values [0, 3] the
minimum is 0, but the derivation returns 3: after picking 0 the running
candidate is falsy, so the next value overwrites it. -/
theorem c5_counterexample :
    (0 : ℤ) ∈ getRefinements ⟨[0, 3], 0⟩ ∧
    (∀ v ∈ getRefinements ⟨[0, 3], 0⟩, (0 : ℤ) ≤ v) ∧
    _getRefinedStar ⟨[0, 3], 0⟩ = some 3 := by
  decide

/-- Witness for C5 at the refinement values [3, 2]. -/
theorem c5_witness :
    (∀ v ∈ getRefinements ⟨[3, 2], 0⟩, v ≠ 0) ∧
    ((getRefinements ⟨[3, 2], 0⟩ = [] → _getRefinedStar ⟨[3, 2], 0⟩ = none) ∧
      (getRefinements ⟨[3, 2], 0⟩ ≠ [] → ∃ m, _getRefinedStar ⟨[3, 2], 0⟩ = some m ∧
        m ∈ getRefinements ⟨[3, 2], 0⟩ ∧ ∀ v ∈ getRefinements ⟨[3, 2], 0⟩, m ≤ v)) :=
  ⟨by decide, c5_refinedStar_minimum ⟨[3, 2], 0⟩ (by decide)⟩

/-- Claim C6: starting from an empty refinement list, toggling the same
threshold T with 1 <= T <= max twice leaves the refinement list empty. -/
theorem c6_toggle_involution (c : Config) (T : ℤ) (s0 : HelperState)
    (h0 : s0.refinements = []) (h1 : 1 ≤ T) (h2 : T ≤ (c.max : ℤ)) :
    (_toggleRefinement c (_toggleRefinement c s0 T) T).refinements = [] := by
  have hne : ¬ _getRefinedStar s0 = some T := by
    rw [getRefinedStar_nil s0 h0]
    simp
  have hs1 : (_toggleRefinement c s0 T).refinements = intRange T (c.max : ℤ) := by
    simp [_toggleRefinement, hne, clearRefinements, search, foldl_addRef]
  have href : _getRefinedStar (_toggleRefinement c s0 T) = some T :=
    getRefinedStar_intRange _ T (c.max : ℤ) h1 h2 hs1
  obtain ⟨s1, hgen⟩ : ∃ s1, _toggleRefinement c s0 T = s1 := ⟨_, rfl⟩
  rw [hgen] at href
  rw [hgen]
  simp [_toggleRefinement, href, clearRefinements, search]

/-- Witness for C6 at max = 5 and T = 3 from the empty state. -/
theorem c6_witness :
    (HelperState.refinements ⟨[], 0⟩ = [] ∧ (1 : ℤ) ≤ 3 ∧ (3 : ℤ) ≤ ((5 : ℕ) : ℤ)) ∧
    (_toggleRefinement ⟨"rating", 5⟩
      (_toggleRefinement ⟨"rating", 5⟩ ⟨[], 0⟩ 3) 3).refinements = [] :=
  ⟨⟨rfl, by decide, by decide⟩,
    c6_toggle_involution ⟨"rating", 5⟩ 3 ⟨[], 0⟩ rfl (by decide) (by decide)⟩

/-- Claim C8: construction fails exactly when the render callback is not a
function or attributeName is missing or empty; with a valid callback, a
nonempty attributeName and no max given, it succeeds with max = 5. -/
theorem c8_construction_validation (rf : Bool) (p : WidgetParams) :
    ((∃ e, connectStarRating rf p = Except.error e) ↔
      (rf = false ∨ p.attributeName = none ∨ p.attributeName = some "")) ∧
    (rf = true → ∀ a, p.attributeName = some a → a ≠ "" → p.max = none →
      connectStarRating rf p = Except.ok { attributeName := a, max := 5 }) := by
  constructor
  · cases rf with
    | false => simp [connectStarRating, checkRendering]
    | true =>
      cases hp : p.attributeName with
      | none => simp [connectStarRating, checkRendering, hp]
      | some a =>
        by_cases ha : a = ""
        · subst ha
          simp [connectStarRating, checkRendering, hp]
        · simp [connectStarRating, checkRendering, hp, ha]
  · rintro rfl a ha hne hm
    simp [connectStarRating, checkRendering, ha, hne, hm]

end StarRating
